import Mathlib

/-!
Shallow embedding of `listener.go` from the nsq-event-bus repository.

The Go file defines the listener facade `On`, the dispatch callback
`handleMessage`, and the topic provisioner `checkTopic` / `createTopic`.
Network and transport effects (HTTP requests, consumer registration,
connect, reply emission) are modelled by an explicit environment oracle
that supplies the outcome of each external call, and every function
additionally returns the ordered list of external calls it performed,
so that properties such as "no network call is made" or "exactly one
create-topic POST is issued" are stated about that trace.
-/

/-- Go `error` values.  The three sentinel errors declared in
`listener.go` are distinct constructors; `fmtError` stands for
`fmt.Errorf`, `newError` for `errors.New`, and arbitrary errors coming
from handlers or external collaborators are also values of this type. -/
inductive GoError where
  | errTopicRequired
  | errChannelRequired
  | errHandlerRequired
  | fmtError (msg : String)
  | newError (msg : String)
  | goPanic (msg : String)
  deriving DecidableEq, Repr

/-- A Go `interface\x7b\x7d` value, as produced by a handler and passed to
the reply publish. -/
inductive GoValue where
  | str (s : String)
  | int (n : Int)
  | nilValue
  deriving DecidableEq, Repr

/-- One entry of the JSON array returned by `GET /nodes`
(`broadcast_address` / `tcp_port`), cf. the anonymous struct in
`createTopic`. -/
structure BrokerNode where
  address : String
  tcpPort : Int
  deriving DecidableEq, Repr

/-- An HTTP response as observed by `listener.go`: the numeric status
code, the status text (Go `resp.Status`), and the outcome of decoding
the body as a node list (`json.NewDecoder(resp.Body).Decode(&nodes)`),
which is only inspected by `createTopic`. -/
structure HttpResponse where
  statusCode : Nat
  status : String
  nodesBody : Except GoError (List BrokerNode)

/-- Oracle for `http.Get` and `http.Post`: maps a URL to either a
transport error or a response. -/
structure HttpEnv where
  get : String → Except GoError HttpResponse
  post : String → Except GoError HttpResponse

/-- External calls performed by the listener code, in order. -/
inductive Event where
  | httpGet (url : String)
  | httpPost (url : String)
  | consumerNew (topic channel : String)
  | addHandlers (concurrency : Nat)
  | connect (lookups : List String)
  | handlerInvoked
  | newEmitter
  | emit (destination : String) (payload : GoValue)
  deriving DecidableEq, Repr

/-- Whether an event is an HTTP request (discovery or broker surface). -/
def Event.isHttp : Event → Bool
  | Event.httpGet _ => true
  | Event.httpPost _ => true
  | _ => false

/-- Whether an event is transport work (consumer registration, handler
registration, connect). -/
def Event.isTransport : Event → Bool
  | Event.consumerNew _ _ => true
  | Event.addHandlers _ => true
  | Event.connect _ => true
  | _ => false

/-- `fmt.Sprintf("http://%s/lookup?topic=%s", lookupAddress, topic)`. -/
def lookupURL (lookupAddress topic : String) : String :=
  "http://" ++ lookupAddress ++ "/lookup?topic=" ++ topic

/-- `fmt.Sprintf("http://%s/nodes", lookupAddress)`. -/
def nodesURL (lookupAddress : String) : String :=
  "http://" ++ lookupAddress ++ "/nodes"

/-- `fmt.Sprintf("http://%s/topic/create?topic=%s", nsqdAddress, topic)`
where `nsqdAddress` is `broadcast_address:tcp_port` of a node. -/
def createURL (node : BrokerNode) (topic : String) : String :=
  "http://" ++ node.address ++ ":" ++ toString node.tcpPort ++
    "/topic/create?topic=" ++ topic

/-- `checkTopic` from `listener.go`: GET the lookup URL; a transport
error is returned as is; status 200 means the topic exists, 404 means
it does not, and any other status code is an error.  (The Go function
returns `(bool, error)`; on the error paths the bool is `false` and is
ignored by the caller, so the result is modelled as `Except`.) -/
def checkTopic (http : HttpEnv) (lookupAddress topic : String) :
    Except GoError Bool × List Event :=
  match http.get (lookupURL lookupAddress topic) with
  | Except.error e => (Except.error e, [Event.httpGet (lookupURL lookupAddress topic)])
  | Except.ok resp =>
    if resp.statusCode = 200 then
      (Except.ok true, [Event.httpGet (lookupURL lookupAddress topic)])
    else if resp.statusCode = 404 then
      (Except.ok false, [Event.httpGet (lookupURL lookupAddress topic)])
    else
      (Except.error (GoError.fmtError ("unexpected status code: " ++ toString resp.statusCode)),
        [Event.httpGet (lookupURL lookupAddress topic)])

/-- `createTopic` from `listener.go`: GET `/nodes` from the lookup
address; non-200 is an error carrying the status text; decode the body
as a node list (a decode error is returned as is); an empty list is the
`errors.New("no nsqd nodes found in lookup")` error; otherwise POST the
create-topic URL built from the first node, succeeding exactly on
status 200 and otherwise returning an error with the status text. -/
def createTopic (http : HttpEnv) (topic lookupAddress : String) :
    Except GoError Unit × List Event :=
  match http.get (nodesURL lookupAddress) with
  | Except.error e => (Except.error e, [Event.httpGet (nodesURL lookupAddress)])
  | Except.ok resp =>
    if resp.statusCode ≠ 200 then
      (Except.error (GoError.fmtError ("failed to get nsqd address from lookup: " ++ resp.status)),
        [Event.httpGet (nodesURL lookupAddress)])
    else
      match resp.nodesBody with
      | Except.error e => (Except.error e, [Event.httpGet (nodesURL lookupAddress)])
      | Except.ok [] =>
        (Except.error (GoError.newError "no nsqd nodes found in lookup"),
          [Event.httpGet (nodesURL lookupAddress)])
      | Except.ok (node :: _) =>
        match http.post (createURL node topic) with
        | Except.error e =>
          (Except.error e,
            [Event.httpGet (nodesURL lookupAddress), Event.httpPost (createURL node topic)])
        | Except.ok createResp =>
          if createResp.statusCode = 200 then
            (Except.ok (),
              [Event.httpGet (nodesURL lookupAddress), Event.httpPost (createURL node topic)])
          else
            (Except.error (GoError.fmtError ("failed to create topic: " ++ createResp.status)),
              [Event.httpGet (nodesURL lookupAddress), Event.httpPost (createURL node topic)])

/-- The provisioning block of `On` (`listener.go` lines 49-60), which the
design document calls `ensureTopic(discoveryAddr, topic)`: check whether
the topic exists; on a check error return it; if the topic is absent,
create it and return any creation error; otherwise succeed. -/
def ensureTopic (http : HttpEnv) (discoveryAddr topic : String) :
    Option GoError × List Event :=
  match checkTopic http discoveryAddr topic with
  | (Except.error e, t) => (some e, t)
  | (Except.ok true, t) => (none, t)
  | (Except.ok false, t) =>
    match createTopic http topic discoveryAddr with
    | (Except.error e, t2) => (some e, t ++ t2)
    | (Except.ok _, t2) => (none, t ++ t2)

/-- Modelled from the spec: the `Message` type (declared in a repository
file outside `src/`) is the per-message Envelope handed to the handler;
it embeds the transport message and carries the reply-routing field
`replyTo`, which `json.Unmarshal` fills from the raw body.  Transport
fields are irrelevant to the claims and are omitted. -/
structure Message where
  replyTo : String
  deriving DecidableEq, Repr

/-- A raw delivered transport message, together with the outcome of
`json.Unmarshal(message.Body, &m)` on its body (the JSON codec is an
external library, so the parse outcome is part of the input). -/
structure RawMessage where
  unmarshal : Except GoError Message

/-- `HandlerFunc` from `listener.go`:
`func(m *Message) (interface\x7b\x7d, error)`. -/
def HandlerFn : Type := Message → GoValue × Option GoError

/-- `ListenerConfig` (declared outside `src/`); exactly the fields read
by `listener.go` are modelled: `Topic`, `Channel`, `HandlerFunc`
(nilable, hence `Option`), `Lookup`, `HandlerConcurrency`,
`AutoCreateTopic`. -/
structure ListenerConfig where
  topic : String
  channel : String
  handlerFunc : Option HandlerFn
  lookup : List String
  handlerConcurrency : Nat
  autoCreateTopic : Bool

/-- Modelled from the spec: the reply emission collaborator
(`NewEmitter` / `Emit`, declared in a repository file outside `src/`).
Per the design document its contract is
`publish(destination, payload) -> error`, and the dispatch callback
constructs a fresh default client per reply, a construction that can
fail; the environment supplies the construction outcome and the publish
outcome. -/
structure DispatchEnv where
  newEmitter : Option GoError
  emit : String → GoValue → Option GoError

/-- `handleMessage` from `listener.go`: the per-message dispatch
callback.  Unmarshal the body (parse error returned to the transport);
invoke the handler (handler error returned unchanged); if `replyTo` is
empty return success; otherwise construct a fresh default emitter
(construction error returned) and publish the handler result to
`replyTo`, returning the publish outcome.  A `nil` handler would be a
Go nil-dereference panic, marked by `GoError.goPanic`; `On` never
installs a nil handler. -/
def handleMessage (lc : ListenerConfig) (env : DispatchEnv) (raw : RawMessage) :
    Option GoError × List Event :=
  match raw.unmarshal with
  | Except.error e => (some e, [])
  | Except.ok m =>
    match lc.handlerFunc with
    | none => (some (GoError.goPanic "nil HandlerFunc"), [])
    | some f =>
      match f m with
      | (_, some e) => (some e, [Event.handlerInvoked])
      | (res, none) =>
        if m.replyTo = "" then (none, [Event.handlerInvoked])
        else
          match env.newEmitter with
          | some e => (some e, [Event.handlerInvoked, Event.newEmitter])
          | none =>
            (env.emit m.replyTo res,
              [Event.handlerInvoked, Event.newEmitter, Event.emit m.replyTo res])

/-- The publish calls (reply emissions) contained in a trace. -/
def emitsOf (t : List Event) : List Event :=
  t.filter fun ev => match ev with
    | Event.emit _ _ => true
    | _ => false

/-- Environment for `On` beyond HTTP: outcomes of `nsq.NewConsumer`
(an external library call, no network) and of
`consumer.ConnectToNSQLookupds`. -/
structure OnEnv where
  http : HttpEnv
  newConsumer : String → String → Option GoError
  connect : List String → Option GoError

/-- The defaulting pass of `On` (`listener.go` lines 40-46): an empty
`Lookup` list becomes `["localhost:4161"]`, and a zero
`HandlerConcurrency` becomes 1. -/
def fillDefaults (lc : ListenerConfig) : ListenerConfig :=
  let lc1 := if lc.lookup.length = 0 then
    { lc with lookup := ["localhost:4161"] } else lc
  if lc1.handlerConcurrency = 0 then
    { lc1 with handlerConcurrency := 1 } else lc1

/-- The part of `On` after validation and defaulting (`listener.go`
lines 48-70): optional provisioning via the first lookup address, then
`nsq.NewConsumer`, `AddConcurrentHandlers`, and
`ConnectToNSQLookupds`. -/
def onStart (env : OnEnv) (lc : ListenerConfig) : Option GoError × List Event :=
  match (if lc.autoCreateTopic then ensureTopic env.http (lc.lookup.headD "") lc.topic
         else (none, [])) with
  | (some e, t) => (some e, t)
  | (none, t) =>
    match env.newConsumer lc.topic lc.channel with
    | some e => (some e, t ++ [Event.consumerNew lc.topic lc.channel])
    | none =>
      (env.connect lc.lookup,
        t ++ [Event.consumerNew lc.topic lc.channel,
              Event.addHandlers lc.handlerConcurrency,
              Event.connect lc.lookup])

/-- `On` from `listener.go`: validate (topic, then channel, then
handler), fill defaults, then provision and start.  (The
`newListenerConfig` helper only builds the nsq client configuration and
performs no external call; it is absorbed into the `newConsumer`
oracle.) -/
def On (env : OnEnv) (lc : ListenerConfig) : Option GoError × List Event :=
  if lc.topic.length = 0 then (some GoError.errTopicRequired, [])
  else if lc.channel.length = 0 then (some GoError.errChannelRequired, [])
  else if lc.handlerFunc.isNone then (some GoError.errHandlerRequired, [])
  else onStart env (fillDefaults lc)

/-- A Go heap fragment for slice backing arrays: array identifiers map
to string-array contents; `nextId` is the next fresh identifier. -/
structure GoHeap where
  arrays : Nat → List String
  nextId : Nat

/-- A Go slice header for a `[]string`: a pointer to a backing array.
(Length and capacity are subsumed by the stored contents.) -/
structure GoSlice where
  arrId : Nat
  deriving DecidableEq, Repr

/-- The contents a slice header denotes in a heap. -/
def GoSlice.contents (h : GoHeap) (s : GoSlice) : List String :=
  h.arrays s.arrId

/-- The config fields that `On`s defaulting pass writes, at the Go
value/pointer level: the `Lookup` slice header and the
`HandlerConcurrency` integer, both fields of `On`s by-value copy of the
callers `ListenerConfig`. -/
structure ConfigVal where
  lookupSlice : GoSlice
  handlerConcurrency : Nat

/-- `listener.go` lines 40-46 at the Go memory level: `On` holds a copy
`localCfg` of the callers config.  If the slice is empty, a fresh
backing array holding `["localhost:4161"]` is allocated and the local
slice header is repointed to it (`lc.Lookup = []string\x7b...\x7d`); the
callers header still points at the old array.  The concurrency default
writes the local integer field. -/
def fillDefaultsGo (h : GoHeap) (localCfg : ConfigVal) : GoHeap × ConfigVal :=
  let step1 : GoHeap × ConfigVal :=
    if (GoSlice.contents h localCfg.lookupSlice).length = 0 then
      (⟨fun i => if i = h.nextId then ["localhost:4161"] else h.arrays i, h.nextId + 1⟩,
        { localCfg with lookupSlice := ⟨h.nextId⟩ })
    else (h, localCfg)
  (step1.1,
    { step1.2 with handlerConcurrency :=
        if step1.2.handlerConcurrency = 0 then 1 else step1.2.handlerConcurrency })

/-- The error component of a Go `(T, error)` pair modelled as `Except`. -/
def errOf : Except GoError Unit → Option GoError
  | Except.error e => some e
  | Except.ok _ => none

/-- `checkTopic` always performs exactly the one lookup GET. -/
theorem checkTopic_trace (http : HttpEnv) (a tp : String) :
    (checkTopic http a tp).2 = [Event.httpGet (lookupURL a tp)] := by
  unfold checkTopic
  cases h : http.get (lookupURL a tp) with
  | error e => rfl
  | ok r =>
    by_cases h2 : r.statusCode = 200 <;> by_cases h4 : r.statusCode = 404 <;>
      simp [h2, h4]

/-- Every event `createTopic` performs is an HTTP request. -/
theorem createTopic_trace_http (http : HttpEnv) (tp a : String) :
    ((createTopic http tp a).2).all Event.isHttp = true := by
  unfold createTopic
  cases hg : http.get (nodesURL a) with
  | error e => simp [Event.isHttp]
  | ok r =>
    by_cases h2 : r.statusCode ≠ 200
    · simp [h2, Event.isHttp]
    · cases hb : r.nodesBody with
      | error e => simp [h2, hb, Event.isHttp]
      | ok nodes =>
        cases nodes with
        | nil => simp [h2, hb, Event.isHttp]
        | cons node rest =>
          cases hp : http.post (createURL node tp) with
          | error e => simp [h2, hb, hp, Event.isHttp]
          | ok cr =>
            by_cases hc : cr.statusCode = 200 <;> simp [h2, hb, hp, hc, Event.isHttp]

/-- Every event `ensureTopic` performs is an HTTP request. -/
theorem ensureTopic_trace_http (http : HttpEnv) (a tp : String) :
    ((ensureTopic http a tp).2).all Event.isHttp = true := by
  unfold ensureTopic
  cases hct : checkTopic http a tp with
  | mk v t =>
    have ht : t = [Event.httpGet (lookupURL a tp)] := by
      have := checkTopic_trace http a tp
      rw [hct] at this
      exact this
    cases v with
    | error e => simp [ht, Event.isHttp]
    | ok b =>
      cases b with
      | true => simp [ht, Event.isHttp]
      | false =>
        cases hcr : createTopic http tp a with
        | mk v2 t2 =>
          have h2 : t2.all Event.isHttp = true := by
            have := createTopic_trace_http http tp a
            rw [hcr] at this
            exact this
          cases v2 with
          | error e => simp [ht, Event.isHttp, List.all_append, h2]
          | ok u => simp [ht, Event.isHttp, List.all_append, h2]

/-- An HTTP event is not a transport event. -/
theorem isHttp_not_isTransport (ev : Event) (h : ev.isHttp = true) :
    ev.isTransport = false := by
  cases ev <;> simp_all [Event.isHttp, Event.isTransport]

/-- The defaulting pass only writes the lookup list and the concurrency. -/
theorem fillDefaults_preserves (lc : ListenerConfig) :
    (fillDefaults lc).topic = lc.topic ∧
    (fillDefaults lc).channel = lc.channel ∧
    (fillDefaults lc).handlerFunc = lc.handlerFunc ∧
    (fillDefaults lc).autoCreateTopic = lc.autoCreateTopic := by
  unfold fillDefaults
  by_cases h1 : lc.lookup.length = 0 <;> simp [h1] <;>
    by_cases h2 : lc.handlerConcurrency = 0 <;> simp [h2]

/-- Claim C5: `On` validates fail-fast in the fixed order topic,
channel, handler; an empty topic yields `ErrTopicRequired`, a non-empty
topic with empty channel yields `ErrChannelRequired`, and non-empty
topic and channel with a nil handler yields `ErrHandlerRequired`, in
each case with an empty trace, i.e. no transport or network call. -/
theorem On_validation_order (env : OnEnv) (lc : ListenerConfig) :
    (lc.topic.length = 0 → On env lc = (some GoError.errTopicRequired, [])) ∧
    (lc.topic.length ≠ 0 → lc.channel.length = 0 →
      On env lc = (some GoError.errChannelRequired, [])) ∧
    (lc.topic.length ≠ 0 → lc.channel.length ≠ 0 → lc.handlerFunc = none →
      On env lc = (some GoError.errHandlerRequired, [])) := by
  refine ⟨?_, ?_, ?_⟩
  · intro ht
    simp [On, ht]
  · intro ht hc
    simp [On, ht, hc]
  · intro ht hc hh
    simp [On, ht, hc, hh]

/-- Dead environment for the validation witnesses: every external call
errors, so a successful evaluation certifies none is consulted. -/
def c5Env : OnEnv :=
  { http := { get := fun _ => Except.error (GoError.newError "unreachable"),
              post := fun _ => Except.error (GoError.newError "unreachable") },
    newConsumer := fun _ _ => some (GoError.newError "unreachable"),
    connect := fun _ => some (GoError.newError "unreachable") }

/-- Concrete config with an empty topic. -/
def c5LC : ListenerConfig :=
  { topic := "", channel := "billing", handlerFunc := none, lookup := [],
    handlerConcurrency := 0, autoCreateTopic := true }

theorem On_validation_order_witness :
    On c5Env c5LC = (some GoError.errTopicRequired, []) :=
  (On_validation_order c5Env c5LC).1 rfl

/-- Claim C8: for an invalid config (one failing validation), the result
of `On` does not depend on the environment at all, so two calls with the
identical config return the identical error value, and the trace is
empty on each call: no network call or other observable side effect. -/
theorem On_invalid_idempotent (env1 env2 : OnEnv) (lc : ListenerConfig)
    (hinv : lc.topic.length = 0 ∨ lc.channel.length = 0 ∨ lc.handlerFunc = none) :
    On env1 lc = On env2 lc ∧ (On env1 lc).2 = [] := by
  rcases hinv with ht | hc | hh
  · simp [On, ht]
  · by_cases ht : lc.topic.length = 0 <;> simp [On, ht, hc]
  · by_cases ht : lc.topic.length = 0 <;> by_cases hc : lc.channel.length = 0 <;>
      simp [On, ht, hc, hh]

/-- A second dead environment, different from `c5Env`, for the
idempotence witness. -/
def c8Env : OnEnv :=
  { http := { get := fun _ => Except.ok ⟨200, "200 OK", Except.ok []⟩,
              post := fun _ => Except.ok ⟨200, "200 OK", Except.ok []⟩ },
    newConsumer := fun _ _ => none,
    connect := fun _ => none }

/-- Concrete config with topic present and channel missing. -/
def c8LC : ListenerConfig :=
  { topic := "orders", channel := "", handlerFunc := none, lookup := ["disc:4161"],
    handlerConcurrency := 2, autoCreateTopic := true }

theorem On_invalid_idempotent_witness :
    On c5Env c8LC = On c8Env c8LC ∧ (On c5Env c8LC).2 = [] :=
  On_invalid_idempotent c5Env c8Env c8LC (Or.inr (Or.inl rfl))

/-- Claim C7: for a config passing validation, `On` fills defaults
before any other logic: an empty lookup list becomes the single-element
`["localhost:4161"]` and a concurrency of 0 becomes 1, non-empty lists
and non-zero concurrency are left unchanged, every other field is left
unchanged, and `On` continues with exactly the defaulted config. -/
theorem On_fills_defaults (env : OnEnv) (lc : ListenerConfig) (f : HandlerFn)
    (ht : lc.topic.length ≠ 0) (hc : lc.channel.length ≠ 0)
    (hh : lc.handlerFunc = some f) :
    (fillDefaults lc).lookup =
      (if lc.lookup.length = 0 then ["localhost:4161"] else lc.lookup) ∧
    (fillDefaults lc).handlerConcurrency =
      (if lc.handlerConcurrency = 0 then 1 else lc.handlerConcurrency) ∧
    (fillDefaults lc).topic = lc.topic ∧
    (fillDefaults lc).channel = lc.channel ∧
    (fillDefaults lc).handlerFunc = lc.handlerFunc ∧
    (fillDefaults lc).autoCreateTopic = lc.autoCreateTopic ∧
    On env lc = onStart env (fillDefaults lc) := by
  have hpres := fillDefaults_preserves lc
  refine ⟨?_, ?_, hpres.1, hpres.2.1, hpres.2.2.1, hpres.2.2.2, ?_⟩
  · unfold fillDefaults
    by_cases h1 : lc.lookup.length = 0 <;> simp [h1] <;>
      by_cases h2 : lc.handlerConcurrency = 0 <;> simp [h2]
  · unfold fillDefaults
    by_cases h1 : lc.lookup.length = 0 <;> simp [h1] <;>
      by_cases h2 : lc.handlerConcurrency = 0 <;> simp [h2]
  · simp [On, ht, hc, hh]

/-- Concrete handler for witnesses: echoes a fixed result. -/
def cHandler : HandlerFn := fun _ => (GoValue.str "pong", none)

/-- Concrete valid config with empty lookup list and zero concurrency. -/
def c7LC : ListenerConfig :=
  { topic := "orders", channel := "billing", handlerFunc := some cHandler,
    lookup := [], handlerConcurrency := 0, autoCreateTopic := false }

theorem On_fills_defaults_witness :
    (fillDefaults c7LC).lookup = ["localhost:4161"] ∧
    (fillDefaults c7LC).handlerConcurrency = 1 :=
  ⟨((On_fills_defaults c8Env c7LC cHandler (by decide) (by decide) rfl).1).trans rfl,
   ((On_fills_defaults c8Env c7LC cHandler (by decide) (by decide) rfl).2.1).trans rfl⟩

/-- Claim C2: the existence check is a three-way branch on the `/lookup`
response status: 200 makes `ensureTopic` succeed immediately with the
lookup GET as its only external call (no creation attempted); 404
proceeds to creation, appending exactly `createTopic`s behaviour; any
other status returns the unexpected-status error with the lookup GET as
the only external call, so `/nodes` is never queried and no create-topic
call is issued. -/
theorem ensureTopic_lookup_branch (http : HttpEnv) (addr tp : String) :
    (∀ r, http.get (lookupURL addr tp) = Except.ok r → r.statusCode = 200 →
      ensureTopic http addr tp = (none, [Event.httpGet (lookupURL addr tp)])) ∧
    (∀ r, http.get (lookupURL addr tp) = Except.ok r → r.statusCode = 404 →
      ensureTopic http addr tp =
        (errOf (createTopic http tp addr).1,
          Event.httpGet (lookupURL addr tp) :: (createTopic http tp addr).2)) ∧
    (∀ r, http.get (lookupURL addr tp) = Except.ok r →
      r.statusCode ≠ 200 → r.statusCode ≠ 404 →
      ensureTopic http addr tp =
        (some (GoError.fmtError ("unexpected status code: " ++ toString r.statusCode)),
          [Event.httpGet (lookupURL addr tp)])) := by
  refine ⟨?_, ?_, ?_⟩
  · intro r hget h200
    simp [ensureTopic, checkTopic, hget, h200]
  · intro r hget h404
    have h200 : ¬ r.statusCode = 200 := by
      rw [h404]
      decide
    cases hcr : createTopic http tp addr with
    | mk v t2 =>
      cases v <;> simp [ensureTopic, checkTopic, hget, h200, h404, hcr, errOf]
  · intro r hget h200 h404
    simp [ensureTopic, checkTopic, hget, h200, h404]

/-- HTTP environment reporting the topic as existing (200 on lookup)
and erroring on everything else. -/
def c2Http : HttpEnv :=
  { get := fun url => if url = lookupURL "disc:4161" "orders"
      then Except.ok ⟨200, "200 OK", Except.error (GoError.newError "unread body")⟩
      else Except.error (GoError.newError "unreachable"),
    post := fun _ => Except.error (GoError.newError "unreachable") }

theorem ensureTopic_lookup_branch_witness :
    ensureTopic c2Http "disc:4161" "orders" =
      (none, [Event.httpGet (lookupURL "disc:4161" "orders")]) :=
  (ensureTopic_lookup_branch c2Http "disc:4161" "orders").1
    ⟨200, "200 OK", Except.error (GoError.newError "unread body")⟩ (by simp [c2Http]) rfl

/-- Claim C3: for a creation attempt, a non-200 `/nodes` response is an
error; a 200 response with an empty node list yields the no-nodes error
with no create-topic POST; otherwise exactly one create-topic POST is
issued, addressed via the first node, and the operation succeeds iff
that POST returns 200, otherwise returning an error carrying the
brokers status text. -/
theorem createTopic_first_node (http : HttpEnv) (tp addr : String) :
    (∀ r, http.get (nodesURL addr) = Except.ok r → r.statusCode ≠ 200 →
      createTopic http tp addr =
        (Except.error (GoError.fmtError ("failed to get nsqd address from lookup: " ++ r.status)),
          [Event.httpGet (nodesURL addr)])) ∧
    (∀ r, http.get (nodesURL addr) = Except.ok r → r.statusCode = 200 →
      r.nodesBody = Except.ok [] →
      createTopic http tp addr =
        (Except.error (GoError.newError "no nsqd nodes found in lookup"),
          [Event.httpGet (nodesURL addr)])) ∧
    (∀ r node ns cr, http.get (nodesURL addr) = Except.ok r → r.statusCode = 200 →
      r.nodesBody = Except.ok (node :: ns) →
      http.post (createURL node tp) = Except.ok cr →
      (createTopic http tp addr).2 =
        [Event.httpGet (nodesURL addr), Event.httpPost (createURL node tp)] ∧
      ((createTopic http tp addr).1 = Except.ok () ↔ cr.statusCode = 200) ∧
      (cr.statusCode ≠ 200 →
        (createTopic http tp addr).1 =
          Except.error (GoError.fmtError ("failed to create topic: " ++ cr.status)))) := by
  refine ⟨?_, ?_, ?_⟩
  · intro r hget h200
    simp [createTopic, hget, h200]
  · intro r hget h200 hb
    simp [createTopic, hget, h200, hb]
  · intro r node ns cr hget h200 hb hpost
    by_cases hcr : cr.statusCode = 200 <;>
      simp [createTopic, hget, h200, hb, hpost, hcr]

/-- HTTP environment of the specs concrete scenario: `/nodes` returns
one node `n1:4150` and the create POST to it returns 200. -/
def c3Http : HttpEnv :=
  { get := fun url => if url = nodesURL "disc:4161"
      then Except.ok ⟨200, "200 OK", Except.ok [⟨"n1", 4150⟩]⟩
      else Except.error (GoError.newError "unreachable"),
    post := fun url => if url = createURL ⟨"n1", 4150⟩ "orders"
      then Except.ok ⟨200, "200 OK", Except.error (GoError.newError "unread body")⟩
      else Except.error (GoError.newError "unreachable") }

theorem createTopic_first_node_witness :
    (createTopic c3Http "orders" "disc:4161").2 =
      [Event.httpGet (nodesURL "disc:4161"),
       Event.httpPost (createURL ⟨"n1", 4150⟩ "orders")] ∧
    (createTopic c3Http "orders" "disc:4161").1 = Except.ok () :=
  have h := (createTopic_first_node c3Http "orders" "disc:4161").2.2
    ⟨200, "200 OK", Except.ok [⟨"n1", 4150⟩]⟩ ⟨"n1", 4150⟩ []
    ⟨200, "200 OK", Except.error (GoError.newError "unread body")⟩
    (by simp [c3Http]) rfl rfl (by simp [c3Http])
  ⟨h.1, h.2.1.mpr rfl⟩

/-- Config installing the concrete echo handler, for the dispatch
counterexample. -/
def c1LC : ListenerConfig :=
  { topic := "t", channel := "c", handlerFunc := some cHandler,
    lookup := ["localhost:4161"], handlerConcurrency := 1, autoCreateTopic := false }

/-- Dispatch environment in which constructing the default emitter
fails (e.g. the producer cannot dial the broker). -/
def c1BadEnv : DispatchEnv :=
  { newEmitter := some (GoError.newError "producer dial failed"),
    emit := fun _ _ => none }

/-- Raw message whose body parses with `replyTo = "X"`. -/
def c1Raw : RawMessage := { unmarshal := Except.ok { replyTo := "X" } }

/-- Claim C1 counterexample: a delivered message whose body parses with
`replyTo = "X"` and whose handler invocation succeeds, on which the
dispatch callback performs zero publish calls rather than exactly one,
because constructing the default emission client fails. -/
theorem handleMessage_reply_counterexample :
    c1Raw.unmarshal = Except.ok { replyTo := "X" } ∧
    c1LC.handlerFunc = some cHandler ∧
    (cHandler { replyTo := "X" }).2 = none ∧
    ("X" : String) ≠ "" ∧
    emitsOf (handleMessage c1LC c1BadEnv c1Raw).2 = [] ∧
    (handleMessage c1LC c1BadEnv c1Raw).1 = some (GoError.newError "producer dial failed") :=
  ⟨rfl, rfl, rfl, by decide, rfl, rfl⟩

/-- Claim C1 (amended): for a delivered message whose body parses and
whose handler succeeds, provided construction of the fresh default
emission client succeeds, a non-empty `replyTo = X` yields exactly one
publish call, to destination `X`, with the handlers result as payload,
the publish outcome being the callback result; an empty `replyTo`
yields zero publish calls and the callback returns success. -/
theorem handleMessage_reply_routing (lc : ListenerConfig) (f : HandlerFn)
    (env : DispatchEnv) (raw : RawMessage) (m : Message) (res : GoValue)
    (hf : lc.handlerFunc = some f) (hu : raw.unmarshal = Except.ok m)
    (hh : f m = (res, none)) (he : env.newEmitter = none) :
    (m.replyTo ≠ "" →
      emitsOf (handleMessage lc env raw).2 = [Event.emit m.replyTo res] ∧
      (handleMessage lc env raw).1 = env.emit m.replyTo res) ∧
    (m.replyTo = "" →
      emitsOf (handleMessage lc env raw).2 = [] ∧
      (handleMessage lc env raw).1 = none) := by
  constructor
  · intro hr
    simp [handleMessage, hu, hf, hh, hr, he, emitsOf]
  · intro hr
    simp [handleMessage, hu, hf, hh, hr, emitsOf]

/-- Dispatch environment whose emitter construction and publishes both
succeed. -/
def c1GoodEnv : DispatchEnv := { newEmitter := none, emit := fun _ _ => none }

theorem handleMessage_reply_routing_witness :
    emitsOf (handleMessage c1LC c1GoodEnv c1Raw).2 =
      [Event.emit "X" (GoValue.str "pong")] :=
  ((handleMessage_reply_routing c1LC cHandler c1GoodEnv c1Raw
      { replyTo := "X" } (GoValue.str "pong") rfl rfl rfl rfl).1 (by decide)).1

/-- Claim C4: the dispatch callback propagates errors without retrying
or swallowing: a body parse failure returns the parse error with the
handler never invoked (empty trace); a handler error is returned
unchanged with no publish; a reply publish failure is returned as the
overall per-message callback error. -/
theorem handleMessage_error_propagation (lc : ListenerConfig) (f : HandlerFn)
    (env : DispatchEnv) (raw : RawMessage) (hf : lc.handlerFunc = some f) :
    (∀ e, raw.unmarshal = Except.error e → handleMessage lc env raw = (some e, [])) ∧
    (∀ m res e, raw.unmarshal = Except.ok m → f m = (res, some e) →
      handleMessage lc env raw = (some e, [Event.handlerInvoked])) ∧
    (∀ m res e, raw.unmarshal = Except.ok m → f m = (res, none) → m.replyTo ≠ "" →
      env.newEmitter = none → env.emit m.replyTo res = some e →
      (handleMessage lc env raw).1 = some e) := by
  refine ⟨?_, ?_, ?_⟩
  · intro e hu
    simp [handleMessage, hu]
  · intro m res e hu hh
    simp [handleMessage, hu, hf, hh]
  · intro m res e hu hh hr hne hemit
    simp [handleMessage, hu, hf, hh, hr, hne, hemit]

/-- Raw message whose body fails to parse. -/
def c4Raw : RawMessage := { unmarshal := Except.error (GoError.newError "invalid json") }

theorem handleMessage_error_propagation_witness :
    handleMessage c1LC c1GoodEnv c4Raw = (some (GoError.newError "invalid json"), []) :=
  (handleMessage_error_propagation c1LC cHandler c1GoodEnv c4Raw rfl).1
    (GoError.newError "invalid json") rfl

/-- Claim C10: for a delivered message with non-empty `replyTo` whose
handler succeeded, a failing construction of the fresh default emission
client makes the dispatch callback return that construction error as the
per-message failure, with no publish call attempted. -/
theorem handleMessage_emitter_failure (lc : ListenerConfig) (f : HandlerFn)
    (env : DispatchEnv) (raw : RawMessage) (m : Message) (res : GoValue) (e : GoError)
    (hf : lc.handlerFunc = some f) (hu : raw.unmarshal = Except.ok m)
    (hh : f m = (res, none)) (hr : m.replyTo ≠ "") (he : env.newEmitter = some e) :
    handleMessage lc env raw = (some e, [Event.handlerInvoked, Event.newEmitter]) ∧
    emitsOf (handleMessage lc env raw).2 = [] := by
  have hmain : handleMessage lc env raw = (some e, [Event.handlerInvoked, Event.newEmitter]) := by
    simp [handleMessage, hu, hf, hh, hr, he]
  refine ⟨hmain, ?_⟩
  rw [hmain]
  rfl

/-- Raw message replying to destination "replies". -/
def c10Raw : RawMessage := { unmarshal := Except.ok { replyTo := "replies" } }

theorem handleMessage_emitter_failure_witness :
    handleMessage c1LC c1BadEnv c10Raw =
      (some (GoError.newError "producer dial failed"),
        [Event.handlerInvoked, Event.newEmitter]) :=
  (handleMessage_emitter_failure c1LC cHandler c1BadEnv c10Raw
    { replyTo := "replies" } (GoValue.str "pong")
    (GoError.newError "producer dial failed") rfl rfl rfl (by decide) rfl).1

/-- Claim C6: with `autoCreateTopic` set and validation passed, `On`
runs the provisioner on the first (defaulted) discovery address before
any transport work: a provisioning error becomes `On`s result with a
trace of HTTP requests only (the subscription is never started), and
any transport event in `On`s trace implies provisioning succeeded. -/
theorem On_provisioning_gate (env : OnEnv) (lc : ListenerConfig) (f : HandlerFn)
    (ht : lc.topic.length ≠ 0) (hc : lc.channel.length ≠ 0)
    (hh : lc.handlerFunc = some f) (ha : lc.autoCreateTopic = true) :
    (∀ e t, ensureTopic env.http ((fillDefaults lc).lookup.headD "") lc.topic = (some e, t) →
      On env lc = (some e, t) ∧ t.all Event.isHttp = true) ∧
    (∀ ev, ev ∈ (On env lc).2 → ev.isTransport = true →
      (ensureTopic env.http ((fillDefaults lc).lookup.headD "") lc.topic).1 = none) := by
  have htopic := (fillDefaults_preserves lc).1
  have hauto : (fillDefaults lc).autoCreateTopic = true := by
    rw [(fillDefaults_preserves lc).2.2.2]
    exact ha
  have hOn : On env lc = onStart env (fillDefaults lc) := by
    simp [On, ht, hc, hh]
  have key : ∀ e t,
      ensureTopic env.http ((fillDefaults lc).lookup.headD "") lc.topic = (some e, t) →
      onStart env (fillDefaults lc) = (some e, t) := by
    intro e t hens
    unfold onStart
    rw [hauto, if_pos rfl, htopic, hens]
  constructor
  · intro e t hens
    refine ⟨?_, ?_⟩
    · rw [hOn]
      exact key e t hens
    · have hall := ensureTopic_trace_http env.http ((fillDefaults lc).lookup.headD "") lc.topic
      rw [hens] at hall
      exact hall
  · intro ev hmem htr
    cases hens : ensureTopic env.http ((fillDefaults lc).lookup.headD "") lc.topic with
    | mk v t =>
      cases v with
      | none => rfl
      | some e =>
        have hOn2 : On env lc = (some e, t) := by
          rw [hOn]
          exact key e t hens
        have hall := ensureTopic_trace_http env.http ((fillDefaults lc).lookup.headD "") lc.topic
        rw [hens] at hall
        rw [hOn2] at hmem
        have hhttp : ev.isHttp = true := List.all_eq_true.mp hall ev hmem
        have hnt := isHttp_not_isTransport ev hhttp
        rw [htr] at hnt
        simp at hnt

/-- HTTP environment where the lookup for `orders` answers 500, so
provisioning must fail before any transport work. -/
def c6Http : HttpEnv :=
  { get := fun url => if url = lookupURL "disc:4161" "orders"
      then Except.ok ⟨500, "500 Internal Server Error", Except.ok []⟩
      else Except.error (GoError.newError "unreachable"),
    post := fun _ => Except.error (GoError.newError "unreachable") }

/-- Environment for the provisioning-gate witness. -/
def c6Env : OnEnv :=
  { http := c6Http, newConsumer := fun _ _ => none, connect := fun _ => none }

/-- Valid config requesting topic auto-creation via `disc:4161`. -/
def c6LC : ListenerConfig :=
  { topic := "orders", channel := "billing", handlerFunc := some cHandler,
    lookup := ["disc:4161"], handlerConcurrency := 1, autoCreateTopic := true }

theorem On_provisioning_gate_witness :
    On c6Env c6LC =
      (some (GoError.fmtError "unexpected status code: 500"),
        [Event.httpGet (lookupURL "disc:4161" "orders")]) :=
  ((On_provisioning_gate c6Env c6LC cHandler (by decide) (by decide) rfl rfl).1
    (GoError.fmtError "unexpected status code: 500")
    [Event.httpGet (lookupURL "disc:4161" "orders")] rfl).1

/-- Claim C9: `On` receives the config by value, so the defaulting
writes touch only the local copy: at the Go memory level, the callers
slice header still denotes the same contents after the pass, every
previously allocated backing array is unchanged (the default list lives
in a freshly allocated array), while the local copys slice does come to
denote the defaulted contents. -/
theorem fillDefaultsGo_caller_unchanged (h : GoHeap) (c : ConfigVal)
    (hv : c.lookupSlice.arrId < h.nextId) :
    GoSlice.contents (fillDefaultsGo h c).1 c.lookupSlice =
      GoSlice.contents h c.lookupSlice ∧
    (∀ i, i < h.nextId → (fillDefaultsGo h c).1.arrays i = h.arrays i) ∧
    GoSlice.contents (fillDefaultsGo h c).1 (fillDefaultsGo h c).2.lookupSlice =
      (if (GoSlice.contents h c.lookupSlice).length = 0 then ["localhost:4161"]
       else GoSlice.contents h c.lookupSlice) := by
  by_cases h0 : (GoSlice.contents h c.lookupSlice).length = 0
  · have hnil : h.arrays c.lookupSlice.arrId = [] := by
      simp only [GoSlice.contents] at h0
      exact List.length_eq_zero.mp h0
    refine ⟨?_, ?_, ?_⟩
    · simp [fillDefaultsGo, GoSlice.contents, hnil, Nat.ne_of_lt hv]
    · intro i hi
      simp [fillDefaultsGo, GoSlice.contents, hnil, Nat.ne_of_lt hi]
    · simp [fillDefaultsGo, GoSlice.contents, hnil]
  · have hnil : ¬ h.arrays c.lookupSlice.arrId = [] := by
      simp only [GoSlice.contents] at h0
      intro he
      exact h0 (by rw [he]; rfl)
    refine ⟨?_, ?_, ?_⟩
    · simp [fillDefaultsGo, GoSlice.contents, hnil]
    · intro i hi
      simp [fillDefaultsGo, GoSlice.contents, hnil]
    · simp [fillDefaultsGo, GoSlice.contents, hnil]

theorem fillDefaultsGo_caller_unchanged_witness :
    GoSlice.contents (fillDefaultsGo ⟨fun _ => [], 1⟩ ⟨⟨0⟩, 0⟩).1 ⟨0⟩ =
      GoSlice.contents ⟨fun _ => [], 1⟩ ⟨0⟩ :=
  (fillDefaultsGo_caller_unchanged ⟨fun _ => [], 1⟩ ⟨⟨0⟩, 0⟩ (by decide)).1
